import Mathlib

/-!
Verification of the homework-status polling bot (`homework.py`) against its
natural-language specification.

The Python module is shallowly embedded: Python values are the inductive
`PyVal`, raised exceptions are the inductive `PyError` threaded through
`Except`, and each source function (`send_message`, `get_api_answer`,
`check_response`, `parse_status`, and the body of `main`'s while-loop)
becomes a Lean function of the same name.  Network and messaging transports
are modelled as oracles (`HttpOutcome`, `TransportOutcome`) supplied to each
poll cycle.  Logging is modelled by returning the list of emitted log
entries.
-/

set_option maxHeartbeats 1000000
set_option linter.unusedVariables false

/-- A decoded Python/JSON value, as the program manipulates them: `None`,
strings, integers, booleans, lists, and string-keyed dictionaries
(all keys occurring in this program are strings). -/
inductive PyVal where
  | none
  | str (s : String)
  | int (n : Int)
  | bool (b : Bool)
  | list (xs : List PyVal)
  | dict (kvs : List (String × PyVal))
deriving Repr

/-- Exceptions the program can raise, tagged with the Python exception class
and the message (for `KeyError` the message stands for the missing key). -/
inductive PyError where
  | keyError (msg : String)
  | typeError (msg : String)
  | attributeError (msg : String)
  | valueError (msg : String)
  | httpError (msg : String)
  | unexpectedStatusError (msg : String)
  | telegramError (msg : String)
  | requestException (msg : String)
  | connectTimeout (msg : String)
deriving Repr, DecidableEq

/-- Severity levels used by the `logging` calls in the source. -/
inductive LogLevel where
  | debug
  | info
  | warning
  | error
  | critical
deriving Repr, DecidableEq

/-- One emitted log record: severity plus formatted message. -/
structure LogEntry where
  level : LogLevel
  msg : String
deriving Repr, DecidableEq

/-- Python dictionary lookup on the association-list representation
(first binding wins, as dict keys are unique). -/
def dictGet {α : Type} (kvs : List (String × α)) (k : String) : Option α :=
  match kvs with
  | [] => Option.none
  | (k2, v) :: rest => if k2 = k then Option.some v else dictGet rest k

/-- The Python type name of a value, as used in runtime error messages. -/
def pyTypeName : PyVal → String
  | .none => "NoneType"
  | .str _ => "str"
  | .int _ => "int"
  | .bool _ => "bool"
  | .list _ => "list"
  | .dict _ => "dict"

/-- Comma-join, as Python prints container elements. -/
def pyStrJoin : List String → String
  | [] => ""
  | [s] => s
  | s :: rest => s ++ ", " ++ pyStrJoin rest

mutual

/-- CPython `str()` of a value (containers print via `repr` of elements;
string elements are shown single-quoted, written here with `Char.toString`
to keep the embedding readable). -/
def pyStr : PyVal → String
  | .none => "None"
  | .str s => s
  | .int n => toString n
  | .bool true => "True"
  | .bool false => "False"
  | .list xs => "[" ++ pyStrJoin (pyReprList xs) ++ "]"
  | .dict kvs => "\x7b" ++ pyStrJoin (pyReprKvs kvs) ++ "\x7d"

/-- CPython `repr()` of a value (differs from `str()` only on strings). -/
def pyRepr : PyVal → String
  | .str s => "\x27" ++ s ++ "\x27"
  | .none => "None"
  | .int n => toString n
  | .bool true => "True"
  | .bool false => "False"
  | .list xs => "[" ++ pyStrJoin (pyReprList xs) ++ "]"
  | .dict kvs => "\x7b" ++ pyStrJoin (pyReprKvs kvs) ++ "\x7d"

/-- `repr` of every element of a list. -/
def pyReprList : List PyVal → List String
  | [] => []
  | v :: vs => pyRepr v :: pyReprList vs

/-- `repr` of every `key: value` pair of a dict. -/
def pyReprKvs : List (String × PyVal) → List String
  | [] => []
  | (k, v) :: kvs => ("\x27" ++ k ++ "\x27: " ++ pyRepr v) :: pyReprKvs kvs

end

/-- Python attribute access `v.get(k)`: on a dict it returns the value or
`None`; on any other value it raises `AttributeError` (CPython quotes the
type and attribute names in the message; the quotes are elided here). -/
def pyGet (v : PyVal) (k : String) : Except PyError PyVal :=
  match v with
  | .dict kvs => Except.ok ((dictGet kvs k).getD PyVal.none)
  | _ => Except.error (PyError.attributeError
      (pyTypeName v ++ " object has no attribute get"))

/-- Python string subscription `s[k]` with a string key `k`: always raises
`TypeError`, since string indices must be integers. -/
def strIndex (_s : String) (_k : String) : Except PyError PyVal :=
  Except.error (PyError.typeError "string indices must be integers")

/-- `RETRY_TIME = 600` -/
def RETRY_TIME : Nat := 600

/-- `ENDPOINT` URL constant from the source. -/
def ENDPOINT : String := "https://practicum.yandex.ru/api/user_api/homework_statuses/"

/-- `HOMEWORK_STATUSES`: the fixed three-entry status → verdict enumeration. -/
def HOMEWORK_STATUSES : List (String × String) :=
  [("approved", "Работа проверена: ревьюеру всё понравилось. Ура!"),
   ("reviewing", "Работа взята на проверку ревьюером."),
   ("rejected", "Работа проверена: у ревьюера есть замечания.")]

/-- Outcome of the Telegram transport call `bot.send_message(...)`:
either delivery succeeds or the library raises a `TelegramError`. -/
inductive TransportOutcome where
  | success
  | telegramFailure (msg : String)
deriving Repr, DecidableEq

/-- The raw transport call: on success the message is delivered (returned in
the singleton list); on failure a `telegram.error.TelegramError` is raised. -/
def bot_send (transport : TransportOutcome) (message : String) :
    Except PyError (List String) :=
  match transport with
  | .success => Except.ok [message]
  | .telegramFailure m => Except.error (PyError.telegramError m)

/-- `send_message(bot, message)`: tries the transport; on success logs
confirmation, on `TelegramError` logs an error and swallows it.  Returns the
emitted logs and the list of delivered messages; an `Except.error` result
would mean an exception escaping to the caller. -/
def send_message (transport : TransportOutcome) (message : String) :
    List LogEntry × Except PyError (List String) :=
  match bot_send transport message with
  | Except.ok delivered =>
      ([⟨LogLevel.info, "Сообщение отправлено"⟩], Except.ok delivered)
  | Except.error (PyError.telegramError _) =>
      ([⟨LogLevel.error, "Сообщение не отправлено"⟩], Except.ok [])
  | Except.error e => ([], Except.error e)

/-- What the HTTP library produced for the GET request: a raised
connect-timeout, another request exception, or a response with a status code
and a body whose JSON decoding either succeeds (`Except.ok`) or raises
`ValueError` (`Except.error` with the library's message). -/
inductive HttpOutcome where
  | connectTimeout (msg : String)
  | requestException (msg : String)
  | response (statusCode : Nat) (body : Except String PyVal)
deriving Repr

/-- The log line emitted by `get_api_answer` for a non-200 response (two
adjacent f-strings in the source, hence the missing space after
`недоступен.`). -/
def apiErrorLog (code : Nat) : String :=
  "Сбой в программе: Эндпоинт " ++ ENDPOINT ++ " недоступен." ++
    "Недоступен. Код ответа API: " ++ toString code

/-- `get_api_answer(current_timestamp)`: issues the GET with
`params = from_date: current_timestamp` (the `HttpOutcome` oracle models the
network's reply to that request).  Re-raises connection errors after logging,
raises `HTTPError` on a non-200 code, and `ValueError` on a non-JSON body. -/
def get_api_answer (current_timestamp : Int) (outcome : HttpOutcome) :
    List LogEntry × Except PyError PyVal :=
  match outcome with
  | .connectTimeout e =>
      ([⟨LogLevel.error, "Превышено время ожидания ответа сервера " ++ e⟩],
       Except.error (PyError.connectTimeout e))
  | .requestException e =>
      ([⟨LogLevel.error, "Произошла ошибка соединения " ++ e⟩],
       Except.error (PyError.requestException e))
  | .response code body =>
      if code ≠ 200 then
        ([⟨LogLevel.error, apiErrorLog code⟩],
         Except.error (PyError.httpError
           ("Неверный код ответа сервера. " ++ toString code)))
      else
        match body with
        | Except.ok v => ([], Except.ok v)
        | Except.error e =>
            ([⟨LogLevel.error, e⟩],
             Except.error (PyError.valueError "Ответ не содержит валидный JSON"))

/-- `check_response(response)`: shape-checks the envelope and returns the
value under `homeworks` unchanged. -/
def check_response (response : PyVal) : List LogEntry × Except PyError PyVal :=
  match response with
  | .dict kvs =>
      match dictGet kvs "homeworks" with
      | Option.none =>
          ([⟨LogLevel.error, "Ключа homeworks нет в словаре."⟩],
           Except.error (PyError.keyError "Ключа homeworks нет в словаре."))
      | Option.some v =>
          match v with
          | .list xs => ([], Except.ok (PyVal.list xs))
          | _ =>
              ([⟨LogLevel.error, "Домашние работы не являются списком!"⟩],
               Except.error (PyError.typeError "Домашние работы не являются списком!"))
  | _ =>
      ([⟨LogLevel.error, "Ответ не является словарем!"⟩],
       Except.error (PyError.typeError "Ответ не является словарем!"))

/-- `HOMEWORK_STATUSES[homework_status]`: Python dict subscription with an
arbitrary key.  A string key is looked up (`KeyError` when absent, carrying
the key); other hashable scalars are absent from this str-keyed dict and also
raise `KeyError`; unhashable keys raise `TypeError`. -/
def statusSubscript (homework_status : PyVal) : Except PyError String :=
  match homework_status with
  | .str s =>
      match dictGet HOMEWORK_STATUSES s with
      | Option.some verdict => Except.ok verdict
      | Option.none => Except.error (PyError.keyError s)
  | .int n => Except.error (PyError.keyError (toString n))
  | .bool b => Except.error (PyError.keyError (pyStr (PyVal.bool b)))
  | .none => Except.error (PyError.keyError "None")
  | .list _ => Except.error (PyError.typeError "unhashable type: list")
  | .dict _ => Except.error (PyError.typeError "unhashable type: dict")

/-- Python identity test `v is None`. -/
def isPyNone : PyVal → Bool
  | PyVal.none => true
  | _ => false

/-- `parse_status(homework)`: reads `homework_name` and `status` via `.get`
(raising `AttributeError` on non-dicts), raises `KeyError` when the status is
`None`, runs the (then unreachable) isinstance dict check, subscripts
`HOMEWORK_STATUSES` — whose `KeyError` propagates, because the handler only
catches `UnexpectedStatusError`, which the subscription never raises — and
formats the result sentence. -/
def parse_status (homework : PyVal) : List LogEntry × Except PyError String :=
  match pyGet homework "homework_name" with
  | Except.error e => ([], Except.error e)
  | Except.ok homework_name =>
    match pyGet homework "status" with
    | Except.error e => ([], Except.error e)
    | Except.ok homework_status =>
      if isPyNone homework_status then
        ([⟨LogLevel.error, "Ключа homework_status нет в словаре."⟩],
         Except.error (PyError.keyError "Ключа homework_status нет в словаре."))
      else
        match homework with
        | .dict _ =>
          match statusSubscript homework_status with
          | Except.error e => ([], Except.error e)
          | Except.ok verdict =>
              ([], Except.ok ("Изменился статус проверки работы \"" ++
                pyStr homework_name ++ "\". " ++ verdict))
        | _ =>
            ([⟨LogLevel.error, "Ответ не является словарем!"⟩],
             Except.error (PyError.typeError "Ответ не является словарем!"))

mutual

/-- Python `==` between two decoded values (structural; the cross-type
coercions of CPython, such as `True == 1`, do not matter here because the
only `!=` in the program compares values of the same shape — and is in fact
never reached, since subscribing the string on its right raises first). -/
def pyEqB : PyVal → PyVal → Bool
  | .none, .none => true
  | .str a, .str b => a = b
  | .int a, .int b => a = b
  | .bool a, .bool b => a = b
  | .list xs, .list ys => pyEqList xs ys
  | .dict xs, .dict ys => pyEqKvs xs ys
  | _, _ => false

/-- Elementwise `==` on lists of values. -/
def pyEqList : List PyVal → List PyVal → Bool
  | [], [] => true
  | x :: xs, y :: ys => pyEqB x y && pyEqList xs ys
  | _, _ => false

/-- Pairwise `==` on dict entries. -/
def pyEqKvs : List (String × PyVal) → List (String × PyVal) → Bool
  | [], [] => true
  | (k1, v1) :: xs, (k2, v2) :: ys => (k1 = k2 : Bool) && pyEqB v1 v2 && pyEqKvs xs ys
  | _, _ => false

end

/-- The `logger.info` line executed at the end of every successful try
block in `main`'s loop. -/
def noChangesLog : LogEntry :=
  ⟨LogLevel.info, "Изменений нет, " ++ toString RETRY_TIME ++ " секунд, проверяем API"⟩

/-- Observable outcome of one iteration of `main`'s `while True` loop:
the value of the `status` variable afterwards, the log entries emitted, the
messages actually delivered to Telegram, and whether `time.sleep(RETRY_TIME)`
ran (it sits in the `else` clause of the try statement, so it runs only when
the try block raised no exception). -/
structure CycleResult where
  status : PyVal
  logs : List LogEntry
  sent : List String
  slept : Bool
deriving Repr

/-- The try block of `main`'s loop, translated statement by statement:
`response = get_api_answer(current_timestamp)`;
`homework = parse_status(response)` (the source calls `parse_status`, not
`check_response`, on the whole envelope);
`if homework and status != homework[,status,]` — subscribing the string
`homework` raises `TypeError`; the branch body re-runs `parse_status` on the
string, sends, and assigns `status = homework[,status,]`; then the
`logger.info` no-changes line.  Returns the emitted logs, the delivered
messages, and the final value of `status` (or the raised exception). -/
def tryBody (current_timestamp : Int) (status : PyVal) (outcome : HttpOutcome)
    (transport : TransportOutcome) :
    List LogEntry × List String × Except PyError PyVal :=
  match get_api_answer current_timestamp outcome with
  | (l1, Except.error e) => (l1, [], Except.error e)
  | (l1, Except.ok response) =>
    match parse_status response with
    | (l2, Except.error e) => (l1 ++ l2, [], Except.error e)
    | (l2, Except.ok homework) =>
      if homework ≠ "" then
        match strIndex homework "status" with
        | Except.error e => (l1 ++ l2, [], Except.error e)
        | Except.ok hwStatus =>
          if pyEqB status hwStatus = false then
            match parse_status (PyVal.str homework) with
            | (l3, Except.error e) => (l1 ++ l2 ++ l3, [], Except.error e)
            | (l3, Except.ok message) =>
              match send_message transport message with
              | (l4, Except.error e) => (l1 ++ l2 ++ l3 ++ l4, [], Except.error e)
              | (l4, Except.ok delivered) =>
                match strIndex homework "status" with
                | Except.error e => (l1 ++ l2 ++ l3 ++ l4, delivered, Except.error e)
                | Except.ok newStatus =>
                    (l1 ++ l2 ++ l3 ++ l4 ++ [noChangesLog], delivered,
                     Except.ok newStatus)
          else (l1 ++ l2 ++ [noChangesLog], [], Except.ok status)
      else (l1 ++ l2 ++ [noChangesLog], [], Except.ok status)

/-- One iteration of `main`'s loop.  The `except Exception` clause computes
`message = f,Сбой в работе программы: ...,` but logs it only under
`if errors != errors:`, which is always false, so nothing is logged and the
loop body ends without sleeping (the `time.sleep` sits in the `else`
clause); on a successful try block the loop sleeps. -/
def mainCycle (current_timestamp : Int) (status : PyVal) (outcome : HttpOutcome)
    (transport : TransportOutcome) : CycleResult :=
  match tryBody current_timestamp status outcome transport with
  | (logs, delivered, Except.ok newStatus) => ⟨newStatus, logs, delivered, true⟩
  | (logs, delivered, Except.error _) => ⟨status, logs, delivered, false⟩

/-- The loop state of `main`: `current_timestamp` (set once from
`int(time.time())`) and `status` (initialised to the string `reviewing`). -/
structure BotState where
  current_timestamp : Int
  status : PyVal
deriving Repr

/-- The initialisation `main` performs before entering the loop. -/
def mainInit (now : Int) : BotState :=
  ⟨now, PyVal.str "reviewing"⟩

/-- Runs `main`'s loop for as many iterations as the environment provides
oracles, threading the state; the loop body never assigns
`current_timestamp`, so the next state keeps it.  Also returns, per cycle,
the `from_date` timestamp passed to `get_api_answer`. -/
def runLoop : BotState → List (HttpOutcome × TransportOutcome) →
    BotState × List Int
  | st, [] => (st, [])
  | st, (oc, tr) :: rest =>
      let r := mainCycle st.current_timestamp st.status oc tr
      let tail := runLoop ⟨st.current_timestamp, r.status⟩ rest
      (tail.1, st.current_timestamp :: tail.2)

/-- `main` from startup through the given number of loop iterations. -/
def mainRun (now : Int) (env : List (HttpOutcome × TransportOutcome)) :
    BotState × List Int :=
  runLoop (mainInit now) env

/-- `leadsWith p h` is true when the character list `h` starts with `p`. -/
def leadsWith : List Char → List Char → Bool
  | [], _ => true
  | _ :: _, [] => false
  | p :: ps, h :: hs => if p = h then leadsWith ps hs else false

/-- `occursIn p h` is true when `p` occurs contiguously inside `h`. -/
def occursIn (pat : List Char) (hay : List Char) : Bool :=
  match hay with
  | [] => leadsWith pat []
  | h :: hs => leadsWith pat (h :: hs) || occursIn pat hs

/-- `containsStr hay pat` is true when `pat` occurs as a substring of `hay`;
it formalises an error or log message "carrying" a piece of text. -/
def containsStr (hay pat : String) : Bool :=
  occursIn pat.toList hay.toList

theorem leadsWith_append_self (p t : List Char) : leadsWith p (p ++ t) = true := by
  induction p with
  | nil => rfl
  | cons c cs ih => simp [leadsWith, ih]

theorem occursIn_append (p pre suf : List Char) :
    occursIn p (pre ++ (p ++ suf)) = true := by
  induction pre with
  | nil =>
      simp only [List.nil_append]
      cases p with
      | nil => cases suf <;> simp [occursIn, leadsWith]
      | cons c cs =>
          have h := leadsWith_append_self (c :: cs) suf
          simp only [List.cons_append] at h
          simp [occursIn, h]
  | cons x xs ih => simp [occursIn, ih]

theorem containsStr_append_mid (pre pat suf : String) :
    containsStr (pre ++ pat ++ suf) pat = true := by
  simp only [containsStr, String.toList, String.data_append, List.append_assoc]
  exact occursIn_append _ _ _

theorem containsStr_append_end (pre pat : String) :
    containsStr (pre ++ pat) pat = true := by
  have h := occursIn_append pat.toList pre.toList []
  simp only [List.append_nil] at h
  simpa only [containsStr, String.toList, String.data_append] using h

theorem tryBody_frame (ts : Int) (s : PyVal) (oc : HttpOutcome)
    (tr : TransportOutcome) :
    (tryBody ts s oc tr).2.1 = [] ∧
    ((tryBody ts s oc tr).2.2 = Except.ok s ∨
      ∃ e, (tryBody ts s oc tr).2.2 = Except.error e) := by
  unfold tryBody
  rcases hga : get_api_answer ts oc with ⟨l1, r1⟩
  rcases r1 with e | response
  · simp
  · dsimp only
    rcases hps : parse_status response with ⟨l2, r2⟩
    rcases r2 with e | homework
    · simp
    · by_cases hhw : homework = ""
      · simp [hhw]
      · simp [hhw, strIndex]

theorem mainCycle_frame (ts : Int) (s : PyVal) (oc : HttpOutcome)
    (tr : TransportOutcome) :
    (mainCycle ts s oc tr).status = s ∧ (mainCycle ts s oc tr).sent = [] := by
  have h := tryBody_frame ts s oc tr
  unfold mainCycle
  rcases hts : tryBody ts s oc tr with ⟨l, d, r⟩
  rw [hts] at h
  rcases r with e | v
  · simpa using h.1
  · rcases h.2 with h2 | ⟨e, h2⟩
    · have hd : d = [] := by simpa using h.1
      have hv : v = s := by simpa using h2
      simp [hd, hv]
    · simp at h2

theorem runLoop_timestamps (env : List (HttpOutcome × TransportOutcome)) :
    ∀ st : BotState,
      (runLoop st env).2 = List.replicate env.length st.current_timestamp ∧
      (runLoop st env).1.current_timestamp = st.current_timestamp := by
  induction env with
  | nil => intro st; simp [runLoop]
  | cons p rest ih =>
      intro st
      rcases p with ⟨oc, tr⟩
      have h := ih ⟨st.current_timestamp,
        (mainCycle st.current_timestamp st.status oc tr).status⟩
      simp only [runLoop, List.length_cons, List.replicate]
      exact ⟨by simp [h.1], by simp [h.2]⟩

theorem leadsWith_extend (p : List Char) :
    ∀ h t, leadsWith p h = true → leadsWith p (h ++ t) = true := by
  induction p with
  | nil => intro h t _; rfl
  | cons c cs ih =>
      intro h t hp
      cases h with
      | nil => simp [leadsWith] at hp
      | cons x hs =>
          simp only [leadsWith] at hp
          by_cases hcx : c = x
          · simp only [List.cons_append, leadsWith, if_pos hcx]
            simp only [if_pos hcx] at hp
            exact ih hs t hp
          · simp [if_neg hcx] at hp

theorem occursIn_extend (p : List Char) :
    ∀ h t, occursIn p h = true → occursIn p (h ++ t) = true := by
  intro h
  induction h with
  | nil =>
      intro t hp
      cases p with
      | nil => cases t <;> simp [occursIn, leadsWith]
      | cons c cs => simp [occursIn, leadsWith] at hp
  | cons x hs ih =>
      intro t hp
      simp only [occursIn, Bool.or_eq_true] at hp
      rcases hp with hp | hp
      · simp only [List.cons_append, occursIn, Bool.or_eq_true]
        left
        have h2 := leadsWith_extend p (x :: hs) t hp
        simpa only [List.cons_append] using h2
      · simp only [List.cons_append, occursIn, Bool.or_eq_true]
        right
        exact ih t hp

theorem containsStr_append_left (hay suf pat : String)
    (h : containsStr hay pat = true) : containsStr (hay ++ suf) pat = true := by
  simpa only [containsStr, String.toList, String.data_append] using
    occursIn_extend pat.toList hay.toList suf.toList h

/-- The envelope of the end-to-end scenario cited by claim C1. -/
def envC1 : PyVal :=
  PyVal.dict [("homeworks", PyVal.list
    [PyVal.dict [("homework_name", PyVal.str "hw1"),
                 ("status", PyVal.str "approved")]])]

/-- Claim C1 is refuted by the code: with Last-Known-Status `reviewing` and
the scenario envelope, the poll cycle sends no notification and leaves the
status unchanged.  `main` passes the whole envelope to `parse_status`
(never calling `check_response`), which raises `KeyError` because the
envelope has no top-level `status` key; the exception is swallowed. -/
theorem claim_C1_eval :
    mainCycle 0 (PyVal.str "reviewing")
        (HttpOutcome.response 200 (Except.ok envC1)) TransportOutcome.success =
      ⟨PyVal.str "reviewing",
       [⟨LogLevel.error, "Ключа homework_status нет в словаре."⟩], [], false⟩ :=
  rfl

/-- Claim C2 is refuted by the code: when the fetch raises (HTTP 503 here),
the cycle swallows the exception without logging the generic failure message
(the guard `errors != errors` is always false) and retries without sleeping
(`time.sleep` sits in the `else` clause of the try statement); only the API
client's own log entry is emitted, and the loop state is simply carried over. -/
theorem claim_C2_eval (ts : Int) (status : PyVal) (body : Except String PyVal)
    (tr : TransportOutcome) :
    mainCycle ts status (HttpOutcome.response 503 body) tr =
      ⟨status, [⟨LogLevel.error, apiErrorLog 503⟩], [], false⟩ :=
  rfl

/-- Claim C3 is refuted by the code on the error class: for a present but
unknown status value the subscription `HOMEWORK_STATUSES[homework_status]`
raises a plain `KeyError` carrying the status, not the dedicated
`UnexpectedStatusError` announced by the claim, because the handler catches only
`UnexpectedStatusError`, which the subscription never raises. -/
theorem claim_C3_eval :
    parse_status (PyVal.dict [("homework_name", PyVal.str "hw1"),
        ("status", PyVal.str "unknown")]) =
      ([], Except.error (PyError.keyError "unknown")) ∧
    PyError.keyError "unknown" ≠
      PyError.unexpectedStatusError "Неожиданный статус домашней работы" :=
  ⟨rfl, by decide⟩

/-- Claim C4 holds: `check_response` rejects a non-dict envelope with the
not-a-mapping `TypeError`, a dict without the `homeworks` key with a
`KeyError`, a non-list `homeworks` value with the not-a-list `TypeError`,
and returns the `homeworks` list unchanged otherwise. -/
theorem claim_C4 (response : PyVal) :
    ((∀ kvs, response ≠ PyVal.dict kvs) →
      (check_response response).2 =
        Except.error (PyError.typeError "Ответ не является словарем!")) ∧
    (∀ kvs, response = PyVal.dict kvs → dictGet kvs "homeworks" = Option.none →
      (check_response response).2 =
        Except.error (PyError.keyError "Ключа homeworks нет в словаре.")) ∧
    (∀ kvs v, response = PyVal.dict kvs →
      dictGet kvs "homeworks" = Option.some v → (∀ xs, v ≠ PyVal.list xs) →
      (check_response response).2 =
        Except.error (PyError.typeError "Домашние работы не являются списком!")) ∧
    (∀ kvs xs, response = PyVal.dict kvs →
      dictGet kvs "homeworks" = Option.some (PyVal.list xs) →
      (check_response response).2 = Except.ok (PyVal.list xs)) := by
  refine ⟨?_, ?_, ?_, ?_⟩
  · intro h
    cases response <;> first | exact absurd rfl (h _) | simp [check_response]
  · intro kvs hkv hnone
    subst hkv
    simp [check_response, hnone]
  · intro kvs v hkv hsome hv
    subst hkv
    cases v <;> first
      | exact absurd rfl (hv _)
      | simp [check_response, hsome]
  · intro kvs xs hkv hsome
    subst hkv
    simp [check_response, hsome]

/-- Witness for claim C4: all four branches exercised on concrete envelopes. -/
theorem claim_C4_witness :
    (check_response (PyVal.int 3)).2 =
      Except.error (PyError.typeError "Ответ не является словарем!") ∧
    (check_response (PyVal.dict [])).2 =
      Except.error (PyError.keyError "Ключа homeworks нет в словаре.") ∧
    (check_response (PyVal.dict [("homeworks", PyVal.int 7)])).2 =
      Except.error (PyError.typeError "Домашние работы не являются списком!") ∧
    (check_response (PyVal.dict [("homeworks", PyVal.list [])])).2 =
      Except.ok (PyVal.list []) :=
  ⟨(claim_C4 (PyVal.int 3)).1 (fun kvs h => by cases h),
   (claim_C4 (PyVal.dict [])).2.1 [] rfl rfl,
   (claim_C4 (PyVal.dict [("homeworks", PyVal.int 7)])).2.2.1 _ (PyVal.int 7)
     rfl rfl (fun xs h => by cases h),
   (claim_C4 (PyVal.dict [("homeworks", PyVal.list [])])).2.2.2 _ [] rfl rfl⟩

/-- Claim C5 holds: a Telegram transport failure is caught inside
`send_message`, which logs an error and returns normally (`Except.ok`),
delivering nothing; no exception reaches the caller. -/
theorem claim_C5 (errMsg message : String) :
    send_message (TransportOutcome.telegramFailure errMsg) message =
      ([⟨LogLevel.error, "Сообщение не отправлено"⟩], Except.ok []) :=
  rfl

/-- Counterexample to claim C6: for the 503 response, the raised error
carries the status code but its message does not contain the endpoint (the
endpoint appears only in the log line), so the error does not carry "the
status code and endpoint" as claimed. -/
theorem claim_C6_counterexample :
    (get_api_answer 0 (HttpOutcome.response 503 (Except.ok (PyVal.dict [])))).2 =
      Except.error (PyError.httpError "Неверный код ответа сервера. 503") ∧
    containsStr "Неверный код ответа сервера. 503" ENDPOINT = false :=
  ⟨rfl, by decide⟩

/-- Claim C6 as amended: for every non-200 status code, `get_api_answer`
raises an `HTTPError` whose message carries the status code — the endpoint
is carried by the logged error message, not by the raised error — and the
response is never treated as a valid result. -/
theorem claim_C6_amended (current_timestamp : Int) (code : Nat)
    (body : Except String PyVal) (h : code ≠ 200) :
    get_api_answer current_timestamp (HttpOutcome.response code body) =
      ([⟨LogLevel.error, apiErrorLog code⟩],
       Except.error (PyError.httpError
         ("Неверный код ответа сервера. " ++ toString code))) ∧
    containsStr ("Неверный код ответа сервера. " ++ toString code)
      (toString code) = true ∧
    containsStr (apiErrorLog code) ENDPOINT = true := by
  refine ⟨?_, containsStr_append_end _ _, ?_⟩
  · simp [get_api_answer, h]
  · have h1 : containsStr ("Сбой в программе: Эндпоинт " ++ ENDPOINT) ENDPOINT = true :=
      containsStr_append_end _ _
    have h2 := containsStr_append_left _ " недоступен." _ h1
    have h3 := containsStr_append_left _ "Недоступен. Код ответа API: " _ h2
    have h4 := containsStr_append_left _ (toString code) _ h3
    exact h4

/-- Witness for claim C6 (amended), at status code 503. -/
theorem claim_C6_witness :
    get_api_answer 0 (HttpOutcome.response 503 (Except.ok (PyVal.dict []))) =
      ([⟨LogLevel.error, apiErrorLog 503⟩],
       Except.error (PyError.httpError
         ("Неверный код ответа сервера. " ++ toString 503))) ∧
    containsStr ("Неверный код ответа сервера. " ++ toString 503)
      (toString 503) = true ∧
    containsStr (apiErrorLog 503) ENDPOINT = true :=
  claim_C6_amended 0 503 (Except.ok (PyVal.dict [])) (by decide)

/-- Claim C7 holds: in every poll cycle in which no notification is
delivered, `status` is unchanged, and its initial value is the string
`reviewing`.  (It holds degenerately: the assignment `status = ...` in the
loop is unreachable, so the status is in fact never mutated at all.) -/
theorem claim_C7 :
    (∀ (ts : Int) (s : PyVal) (oc : HttpOutcome) (tr : TransportOutcome),
      (mainCycle ts s oc tr).sent = [] → (mainCycle ts s oc tr).status = s) ∧
    (∀ now : Int, (mainInit now).status = PyVal.str "reviewing") :=
  ⟨fun ts s oc tr _ => (mainCycle_frame ts s oc tr).1, fun _ => rfl⟩

/-- Witness for claim C7, on a cycle with an empty-dict envelope. -/
theorem claim_C7_witness :
    (mainCycle 0 (PyVal.str "reviewing")
      (HttpOutcome.response 200 (Except.ok (PyVal.dict [])))
      TransportOutcome.success).sent = [] ∧
    (mainCycle 0 (PyVal.str "reviewing")
      (HttpOutcome.response 200 (Except.ok (PyVal.dict [])))
      TransportOutcome.success).status = PyVal.str "reviewing" ∧
    (mainInit 0).status = PyVal.str "reviewing" :=
  ⟨rfl, claim_C7.1 0 _ _ _ rfl, claim_C7.2 0⟩

/-- Claim C8 holds: `current_timestamp` is set once from startup and never
reassigned, so every cycle passes the same `from_date` timestamp to
`get_api_answer` and the final state still carries the initial timestamp. -/
theorem claim_C8 (now : Int) (env : List (HttpOutcome × TransportOutcome)) :
    (mainRun now env).2 = List.replicate env.length now ∧
    (mainRun now env).1.current_timestamp = now := by
  have h := runLoop_timestamps env (mainInit now)
  simpa [mainRun, mainInit] using h

/-- Counterexample to claim C9: on the non-mapping input `[]`, `parse_status`
fails with an `AttributeError` raised by the `.get` lookup, not with the
not-a-mapping `TypeError` the claim describes. -/
theorem claim_C9_counterexample :
    (parse_status (PyVal.list [])).2 =
      Except.error (PyError.attributeError "list object has no attribute get") ∧
    (parse_status (PyVal.list [])).2 ≠
      Except.error (PyError.typeError "Ответ не является словарем!") :=
  ⟨rfl, fun h => PyError.noConfusion (Except.error.inj h)⟩

/-- Claim C9 as amended: for every non-mapping input, `parse_status` fails,
but with the `AttributeError` of the `.get` attribute lookup; the
not-a-mapping `TypeError` branch is unreachable for such inputs. -/
theorem claim_C9_amended (v : PyVal) (h : ∀ kvs, v ≠ PyVal.dict kvs) :
    (parse_status v).2 =
      Except.error (PyError.attributeError
        (pyTypeName v ++ " object has no attribute get")) := by
  cases v <;> first | exact absurd rfl (h _) | rfl

/-- Witness for claim C9 (amended), on the integer input `0`. -/
theorem claim_C9_witness :
    (parse_status (PyVal.int 0)).2 =
      Except.error (PyError.attributeError
        (pyTypeName (PyVal.int 0) ++ " object has no attribute get")) :=
  claim_C9_amended (PyVal.int 0) (fun kvs h => by cases h)

/-- Claim C10 holds: a mapping with a known status but no `homework_name`
key does not fail — `dict.get` yields `None` and the f-string renders it as
the literal text `None` inside the resulting message. -/
theorem claim_C10 (kvs : List (String × PyVal)) (s verdict : String)
    (hname : dictGet kvs "homework_name" = Option.none)
    (hstat : dictGet kvs "status" = Option.some (PyVal.str s))
    (hverdict : dictGet HOMEWORK_STATUSES s = Option.some verdict) :
    parse_status (PyVal.dict kvs) =
      ([], Except.ok ("Изменился статус проверки работы \"None\". " ++ verdict)) := by
  simp [parse_status, pyGet, hname, hstat, isPyNone, statusSubscript, hverdict, pyStr]

/-- Witness for claim C10: a record with only a known status key. -/
theorem claim_C10_witness :
    parse_status (PyVal.dict [("status", PyVal.str "approved")]) =
      ([], Except.ok ("Изменился статус проверки работы \"None\". " ++
        "Работа проверена: ревьюеру всё понравилось. Ура!")) :=
  claim_C10 [("status", PyVal.str "approved")] "approved"
    "Работа проверена: ревьюеру всё понравилось. Ура!" rfl rfl rfl
